import Mathlib

/-!
Verification of the single-slot model supervisor of llama-cpp-server:
a shallow embedding of `ipc_protocol.py`, `model_worker.py` and
`model_proxy.py`, followed by theorems about the embedded operations.

Conventions of the embedding:
* Python dictionaries with a fixed key set become structures; a key that a
  sender may omit becomes an `Option` field with `none` for "key absent".
* Methods that mutate `self` become functions returning the new state.
* A method that may raise returns the new state together with an
  `Option PyErr` (the raised exception, if any); a total function models a
  method that never raises.
* Calls into the foreign inference library (`Llama`) are parametrised by
  oracles describing what the library returns or raises; wall-clock reads
  become a `now : Nat` argument; the cross-process stop flag observed by
  the worker between chunks becomes a function `stops : Nat -> Bool`
  giving the value seen at the i-th check.
-/

/-- Commands sent from the main process to the worker (`ipc_protocol.Command`). -/
inductive Command
  | load
  | generate
  | generate_stream
  | tokenize
  | status
  | shutdown
  | heartbeat
deriving DecidableEq, Repr

/-- Response types sent from the worker (`ipc_protocol.ResponseType`). -/
inductive ResponseType
  | result
  | chunk
  | done
  | error
deriving DecidableEq, Repr

/-- The response payload dictionaries the worker builds, one constructor per
shape occurring in `model_worker.py` (fields not referenced by any claim,
such as `pid` and `usage`, are omitted). -/
inductive RespPayload
  | errP (msg : String)
  | statusP (status : String)
  | chunkP (text : String) (finish_reason : Option String)
  | doneP (finish_reason : String)
  | genP (text : String) (finish_reason : String)
  | tokP (token_count : Nat) (n_ctx : Nat)
  | infoP (model : String) (loaded : Bool)
deriving DecidableEq, Repr

/-- Response record (`ipc_protocol.Response`). -/
structure Response where
  id : String
  type : ResponseType
  payload : RespPayload
deriving DecidableEq, Repr

/-- Request record (`ipc_protocol.Request`). The free-form payload is not
carried here: the LOAD payload is modelled separately as `LoadPayload`, and
the generation payloads only feed the foreign library, which the worker
model receives as an oracle. -/
structure Request where
  id : String
  command : Command
deriving DecidableEq, Repr

/-- Python exception kinds raised by the proxy/supervisor layer. -/
inductive PyErr
  | valueError (msg : String)
  | runtimeError (msg : String)
  | timeoutError (msg : String)
deriving DecidableEq, Repr

/-- Per-model settings dictionary `config.model_settings.<name>`: any subset
of the five keys may be present (`none` = key absent). -/
structure ModelSettings where
  n_ctx : Option Nat := none
  n_gpu_layers : Option Int := none
  n_threads : Option Nat := none
  override_tensor : Option String := none
  offload_kqv : Option Bool := none
deriving DecidableEq, Repr

/-- The parts of the configuration dictionary read by proxy and worker:
`model_manager.n_ctx` and `model_manager.n_gpu_layers` are accessed by
indexing (required), `model_manager.n_threads` by `.get` with default 8,
and `model_settings` maps model names to their override dictionaries. -/
structure Config where
  mm_n_ctx : Nat
  mm_n_gpu_layers : Int
  mm_n_threads : Option Nat
  model_settings : List (String × ModelSettings)
deriving DecidableEq, Repr

/-- `self.config.get("model_settings", {}).get(self.model_name, {})`. -/
def Config.settingsFor (cfg : Config) (model_name : String) : ModelSettings :=
  (cfg.model_settings.lookup model_name).getD {}

/-- The payload dictionary of a LOAD request. `none` means the key is
absent from the dictionary. -/
structure LoadPayload where
  model_path : String
  n_ctx : Option Nat
  n_gpu_layers : Option Int
  n_threads : Option Nat
  override_tensor : Option String
  offload_kqv : Option Bool
deriving DecidableEq, Repr

/-- The LOAD payload built by `ModelProxy._send_load_command`: global
defaults from `config.model_manager`, each replaced by the per-model value
when the corresponding key is present in `model_settings[model_name]`.
Only `model_path`, `n_ctx`, `n_gpu_layers` and `n_threads` are put into the
payload dictionary; no other key is ever sent. -/
def send_load_command_payload (cfg : Config) (model_name model_path : String) :
    LoadPayload :=
  let n_ctx := cfg.mm_n_ctx
  let n_gpu_layers := cfg.mm_n_gpu_layers
  let n_threads := cfg.mm_n_threads.getD 8
  let ms := cfg.settingsFor model_name
  { model_path := model_path
    n_ctx := some (ms.n_ctx.getD n_ctx)
    n_gpu_layers := some (ms.n_gpu_layers.getD n_gpu_layers)
    n_threads := some (ms.n_threads.getD n_threads)
    override_tensor := none
    offload_kqv := none }

/-- The effective parameters with which the worker instantiates `Llama`. -/
structure EffectiveParams where
  model_path : String
  n_ctx : Nat
  n_gpu_layers : Int
  n_threads : Nat
  override_tensor : Option String
  offload_kqv : Bool
deriving DecidableEq, Repr

/-- Parameter extraction in `ModelWorker._handle_load`: `payload.get` with
worker-side defaults 4096, -1, 8, None and True. -/
def handle_load_params (p : LoadPayload) : EffectiveParams :=
  { model_path := p.model_path
    n_ctx := p.n_ctx.getD 4096
    n_gpu_layers := p.n_gpu_layers.getD (-1)
    n_threads := p.n_threads.getD 8
    override_tensor := p.override_tensor
    offload_kqv := p.offload_kqv.getD true }

/-- Modelled from the spec: the parameter-resolution rule of section 4.3,
"Effective LOAD parameters are computed by overlaying per-model overrides on
top of global defaults (n_ctx, n_gpu_layers, n_threads, optionally
override_tensor, offload_kqv)". The configuration contract has no global
key for the last two, so their defaults are the library defaults None and
True. This definition follows the wording of the spec, for comparison with
the behaviour derived from the source. -/
def spec_effective_params (cfg : Config) (model_name model_path : String) :
    EffectiveParams :=
  let ms := cfg.settingsFor model_name
  { model_path := model_path
    n_ctx := ms.n_ctx.getD cfg.mm_n_ctx
    n_gpu_layers := ms.n_gpu_layers.getD cfg.mm_n_gpu_layers
    n_threads := ms.n_threads.getD (cfg.mm_n_threads.getD 8)
    override_tensor := ms.override_tensor
    offload_kqv := ms.offload_kqv.getD true }

example :
    handle_load_params (send_load_command_payload ⟨4096, -1, none, []⟩ "m" "p")
      = spec_effective_params ⟨4096, -1, none, []⟩ "m" "p" := by decide

/-! ## Worker (`model_worker.ModelWorker`) -/

/-- Worker-side state: whether a model handle is loaded (`self.llm` is not
None) and whether the worker was given a stop event (`self.stop_event` is
not None). -/
structure ModelWorker where
  model_name : String
  llm : Bool
  hasStop : Bool
deriving DecidableEq, Repr

/-- One item yielded by the streaming `Llama` call:
`output["choices"][0]["text"]` and its optional finish reason. -/
structure ChunkOut where
  text : String
  finish_reason : Option String
deriving DecidableEq, Repr

/-- Oracle for the foreign inference library inside one request: what each
llama-cpp call returns or raises (`Except.error` = the call raises).
For streaming, `streamRes = .ok (chunks, trail)` says the generator yields
`chunks` in order and then either finishes (`trail = none`) or raises
(`trail = some msg`); `streamRes = .error msg` says the `Llama` call itself
raises before yielding. -/
structure LlmCalls where
  loadRes : Except String Unit
  genRes : Except String (String × String)
  tokRes : Except String (List Nat × Nat)
  streamRes : Except String (List ChunkOut × Option String)
deriving Repr

/-- The `for output in stream` loop of `ModelWorker._handle_stream` followed
by the final `DONE` send: at the i-th iteration the generator either raises
(`trail`, once `chunks` is exhausted) or yields a chunk; the stop event, when
present, is polled right after the pull and, if set, the loop breaks without
sending that chunk; otherwise a `CHUNK` response is sent. After a normal or
stopped exit of the loop the terminal `DONE` carries finish_reason "stop"
(the source computes `"stop" if stopped else "stop"`). Returns the responses
sent and the exception escaping the handler, if any. -/
def streamLoop (rid : String) (hasStop : Bool) (stops : Nat → Bool) :
    List ChunkOut → Option String → Nat → List Response × Option String
  | [], none, _ => ([⟨rid, .done, .doneP "stop"⟩], none)
  | [], some m, _ => ([], some m)
  | c :: rest, trail, i =>
    if hasStop ∧ stops i then
      ([⟨rid, .done, .doneP "stop"⟩], none)
    else
      let r := streamLoop rid hasStop stops rest trail (i + 1)
      (⟨rid, .chunk, .chunkP c.text c.finish_reason⟩ :: r.1, r.2)

/-- `ModelWorker._handle_stream`: refuse when no model is loaded, otherwise
run the streaming loop. -/
def ModelWorker.handle_stream (w : ModelWorker) (req : Request)
    (calls : LlmCalls) (stops : Nat → Bool) : List Response × Option String :=
  if w.llm = false then
    ([⟨req.id, .error, .errP "Model not loaded"⟩], none)
  else
    match calls.streamRes with
    | .error m => ([], some m)
    | .ok (chunks, trail) => streamLoop req.id w.hasStop stops chunks trail 0

/-- `ModelWorker._handle_load`: reply already_loaded, or instantiate the
model (which may raise) and reply loaded. Returns responses, the new worker
state and the exception escaping the handler, if any. -/
def ModelWorker.handle_load (w : ModelWorker) (req : Request)
    (calls : LlmCalls) : List Response × ModelWorker × Option String :=
  if w.llm then
    ([⟨req.id, .result, .statusP "already_loaded"⟩], w, none)
  else
    match calls.loadRes with
    | .error m => ([], w, some m)
    | .ok _ => ([⟨req.id, .result, .statusP "loaded"⟩], { w with llm := true }, none)

/-- `ModelWorker._handle_generate`. -/
def ModelWorker.handle_generate (w : ModelWorker) (req : Request)
    (calls : LlmCalls) : List Response × Option String :=
  if w.llm = false then
    ([⟨req.id, .error, .errP "Model not loaded"⟩], none)
  else
    match calls.genRes with
    | .error m => ([], some m)
    | .ok (text, fr) => ([⟨req.id, .result, .genP text fr⟩], none)

/-- `ModelWorker._handle_tokenize`. -/
def ModelWorker.handle_tokenize (w : ModelWorker) (req : Request)
    (calls : LlmCalls) : List Response × Option String :=
  if w.llm = false then
    ([⟨req.id, .error, .errP "Model not loaded"⟩], none)
  else
    match calls.tokRes with
    | .error m => ([], some m)
    | .ok (tokens, nctx) => ([⟨req.id, .result, .tokP tokens.length nctx⟩], none)

/-- The dispatch-by-command-tag block of `ModelWorker._handle_request`:
responses sent by the chosen handler, new worker state, and the exception
escaping the handler, if any. -/
def ModelWorker.dispatch (w : ModelWorker) (req : Request)
    (calls : LlmCalls) (stops : Nat → Bool) :
    List Response × ModelWorker × Option String :=
  match req.command with
  | .load => w.handle_load req calls
  | .generate =>
      let r := w.handle_generate req calls
      (r.1, w, r.2)
  | .generate_stream =>
      let r := w.handle_stream req calls stops
      (r.1, w, r.2)
  | .tokenize =>
      let r := w.handle_tokenize req calls
      (r.1, w, r.2)
  | .status =>
      ([⟨req.id, .result, .infoP w.model_name w.llm⟩], w, none)
  | .shutdown =>
      ([⟨req.id, .result, .statusP "shutdown"⟩], { w with llm := false }, none)
  | .heartbeat =>
      ([⟨req.id, .result, .statusP "alive"⟩], w, none)

/-- `ModelWorker._handle_request`: dispatch on the command tag; any exception
escaping a handler is caught and answered with an `ERROR` response carrying
the same request id. Returns all responses sent and the new worker state. -/
def ModelWorker.handle_request (w : ModelWorker) (req : Request)
    (calls : LlmCalls) (stops : Nat → Bool) : List Response × ModelWorker :=
  let d := w.dispatch req calls stops
  match d.2.2 with
  | none => (d.1, d.2.1)
  | some m => (d.1 ++ [⟨req.id, .error, .errP m⟩], d.2.1)

/-! ## Proxy (`model_proxy.ModelProxy`) -/

/-- Proxy state. `process = none` models `self.process is None`;
`process = some b` models a spawned child whose `is_alive()` returns `b`.
`conn` is whether `self.conn` holds an endpoint, `stopEvent` is the
cross-process event (`none` before `start()`, `some flag` after). -/
structure ModelProxy where
  model_name : String
  model_path : String
  process : Option Bool
  conn : Bool
  lastUsed : Nat
  stopEvent : Option Bool
deriving DecidableEq, Repr

/-- `ModelProxy.__init__`: no process, no connection, `last_used = 0`,
no stop event. -/
def ModelProxy.init (model_name model_path : String) : ModelProxy :=
  ⟨model_name, model_path, none, false, 0, none⟩

/-- `ModelProxy.is_alive()`. -/
def ModelProxy.is_alive (p : ModelProxy) : Bool :=
  p.process = some true

/-- Outcome of the LOAD handshake inside `start()`: the worker answers with
a non-error response, answers with `ERROR`, or no response arrives within
the 120 s poll window. -/
inductive LoadOutcome
  | ok
  | errResp (msg : String)
  | timeout
deriving DecidableEq, Repr

/-- `ModelProxy.start()`: early return when the child is already alive;
otherwise create the pipe and the stop event, spawn the child, and run
`_send_load_command`, which raises `RuntimeError` on an `ERROR` reply and
`TimeoutError` when no reply arrives. The mutations made before the raise
(pipe, stop event, spawned process) stay in place; `last_used` is only
refreshed on success. -/
def ModelProxy.start (p : ModelProxy) (now : Nat) (outcome : LoadOutcome) :
    ModelProxy × Option PyErr :=
  if p.process = some true then
    (p, none)
  else
    let p2 := { p with conn := true, stopEvent := some false, process := some true }
    match outcome with
    | .ok => ({ p2 with lastUsed := now }, none)
    | .errResp m => (p2, some (.runtimeError ("Failed to load model: " ++ m)))
    | .timeout => (p2, some (.timeoutError "Model load timeout"))

/-- `ModelProxy.stop_generation()`: set the stop event when one exists;
total, hence never raises. -/
def ModelProxy.stop_generation (p : ModelProxy) : ModelProxy :=
  match p.stopEvent with
  | none => p
  | some _ => { p with stopEvent := some true }

/-- `ModelProxy.clear_stop()`: clear the stop event when one exists. -/
def ModelProxy.clear_stop (p : ModelProxy) : ModelProxy :=
  match p.stopEvent with
  | none => p
  | some _ => { p with stopEvent := some false }

/-- `ModelProxy.shutdown()`: return immediately when `self.process is None`;
otherwise escalate (SHUTDOWN request, terminate, kill — all external
effects) and end with `self.process = None` and `self.conn = None`. -/
def ModelProxy.shutdown (p : ModelProxy) : ModelProxy :=
  if p.process = none then p
  else { p with process := none, conn := false }

/-! ## Supervisor (`model_proxy.ModelProxyManager`) -/

/-- Supervisor state: the registry (model name to on-disk path), the
ActiveSlot (`active_proxy`, `active_model`), the default model name and the
loading flag. -/
structure ModelProxyManager where
  models : List (String × String)
  active_proxy : Option ModelProxy
  active_model : Option String
  default_model : Option String
  loading : Bool
deriving DecidableEq, Repr

/-- Observable side effects of a supervisor operation on worker processes. -/
inductive MgrEvent
  | proxyShutdown (model_name : String)
  | proxySpawn (model_name : String)
deriving DecidableEq, Repr

/-- Result of `get_model`: the supervisor state after the call, the worker
lifecycle events it performed, and either the returned proxy or the raised
exception. -/
structure GetModelOut where
  state : ModelProxyManager
  events : List MgrEvent
  result : Except PyErr ModelProxy
deriving Repr

/-- Name resolution at the top of `get_model`: a missing argument falls back
to the configured default model. -/
def ModelProxyManager.resolveName (s : ModelProxyManager)
    (model_name : Option String) : Option String :=
  match model_name with
  | none => s.default_model
  | some n => some n

/-- The tail of `get_model` once a switch is needed: construct a fresh
`ModelProxy`, install it in `active_proxy`, set `loading`, call `start()`
(appending the spawn event), and on success record `active_model`; the
`finally` clause clears `loading` on both paths. On failure the exception
propagates while `active_proxy` keeps the new proxy and `active_model` is
untouched. -/
def ModelProxyManager.spawnNew (s : ModelProxyManager) (n path : String)
    (evs : List MgrEvent) (now : Nat) (outcome : LoadOutcome) : GetModelOut :=
  let newp := ModelProxy.init n path
  let started := newp.start now outcome
  let evs2 := evs ++ [MgrEvent.proxySpawn n]
  match started.2 with
  | none =>
      let s2 := { s with active_proxy := some started.1 }
      ⟨{ s2 with active_model := some n, loading := false }, evs2, .ok started.1⟩
  | some e =>
      ⟨{ s with active_proxy := some started.1, loading := false }, evs2, .error e⟩

/-- `ModelProxyManager.get_model`: resolve the name, validate it against the
registry (raising `ValueError` otherwise, before touching any state), then
under the lock either reuse the live active proxy for that model (refreshing
`last_used`) or shut the old proxy down and spawn a new one. -/
def ModelProxyManager.get_model (s : ModelProxyManager)
    (model_name : Option String) (now : Nat) (outcome : LoadOutcome) :
    GetModelOut :=
  match s.resolveName model_name with
  | none => ⟨s, [], .error (.valueError "Model not found in registry")⟩
  | some n =>
    match s.models.lookup n with
    | none => ⟨s, [], .error (.valueError "Model not found in registry")⟩
    | some path =>
      match s.active_proxy with
      | some p =>
        if s.active_model = some n ∧ p.is_alive = true then
          let p2 := { p with lastUsed := now }
          ⟨{ s with active_proxy := some p2 }, [], .ok p2⟩
        else
          s.spawnNew n path [MgrEvent.proxyShutdown p.model_name] now outcome
      | none => s.spawnNew n path [] now outcome

/-- Python truthiness of the optional `model_name` argument: `None` and the
empty string are falsy. -/
def strTruthy : Option String → Bool
  | none => false
  | some s => !s.isEmpty

/-- `ModelProxyManager.unload_model`: return false when a truthy name is
given that differs from the active model; otherwise shut down and clear the
active proxy when there is one (returning true), else return false. -/
def ModelProxyManager.unload_model (s : ModelProxyManager)
    (model_name : Option String) : Bool × ModelProxyManager × List MgrEvent :=
  if strTruthy model_name = true ∧ model_name ≠ s.active_model then
    (false, s, [])
  else
    match s.active_proxy with
    | some p =>
        (true, { s with active_proxy := none, active_model := none },
          [MgrEvent.proxyShutdown p.model_name])
    | none => (false, s, [])

/-- `ModelProxyManager.unload_all_models`: `1` when `unload_model()` with no
argument returns true, else `0`. -/
def ModelProxyManager.unload_all_models (s : ModelProxyManager) :
    Nat × ModelProxyManager × List MgrEvent :=
  let r := s.unload_model none
  (if r.1 then 1 else 0, r.2.1, r.2.2)

/-- Whether the resolved name is a key of the registry. -/
def registryHas (models : List (String × String)) : Option String → Bool
  | none => false
  | some n => (models.lookup n).isSome

/-- Whether an `Except` is the error case. -/
def isErr {ε α : Type} : Except ε α → Bool
  | .error _ => true
  | .ok _ => false

/-! ## Concrete states used by witnesses and counterexamples -/

/-- A supervisor with one registered model and an empty ActiveSlot. -/
def mgrEmpty : ModelProxyManager :=
  { models := [("m", "models/m.gguf")]
    active_proxy := none
    active_model := none
    default_model := some "m"
    loading := false }

/-- A supervisor whose ActiveSlot holds a live proxy for model "x". -/
def mgrX : ModelProxyManager :=
  { models := [("x", "models/x.gguf")]
    active_proxy := some ⟨"x", "models/x.gguf", some true, true, 0, some false⟩
    active_model := some "x"
    default_model := some "x"
    loading := false }

/-! ## Theorems -/

/-- C7: unload_all_models() performs the same state transition (and the same
worker shutdowns) as unload_model() with no name, returns 1 exactly when
unload_model() returns true and 0 exactly when it returns false, and its
result is always 0 or 1. -/
theorem C7_unload_all_equiv (s : ModelProxyManager) :
    s.unload_all_models.1 = (if (s.unload_model none).1 then 1 else 0) ∧
    s.unload_all_models.2.1 = (s.unload_model none).2.1 ∧
    s.unload_all_models.2.2 = (s.unload_model none).2.2 ∧
    (s.unload_all_models.1 = 0 ∨ s.unload_all_models.1 = 1) := by
  refine ⟨rfl, rfl, rfl, ?_⟩
  by_cases h : (s.unload_model none).1 <;>
    simp [ModelProxyManager.unload_all_models, h]

/-- C8: shutdown() is idempotent and safe from every state: on a
never-started proxy (process is None) it is a no-op, and a second call
leaves the proxy in the same terminal state as the first. -/
theorem C8_shutdown_idempotent (p : ModelProxy) :
    (p.process = none → p.shutdown = p) ∧ p.shutdown.shutdown = p.shutdown := by
  constructor
  · intro h
    simp [ModelProxy.shutdown, h]
  · by_cases h : p.process = none <;> simp [ModelProxy.shutdown, h]

/-- Witness for C8 at the never-started proxy produced by the constructor. -/
theorem C8_witness :
    (ModelProxy.init "m" "models/m.gguf").process = none ∧
    (ModelProxy.init "m" "models/m.gguf").shutdown = ModelProxy.init "m" "models/m.gguf" ∧
    (ModelProxy.init "m" "models/m.gguf").shutdown.shutdown =
      (ModelProxy.init "m" "models/m.gguf").shutdown :=
  ⟨rfl, (C8_shutdown_idempotent (ModelProxy.init "m" "models/m.gguf")).1 rfl,
    (C8_shutdown_idempotent (ModelProxy.init "m" "models/m.gguf")).2⟩

/-- C10: stop_generation() and clear_stop() on a proxy whose start() was
never called (stop_event is None) are no-ops; both are total functions of
the proxy state, so neither raises in any state. -/
theorem C10_stop_clear_noop (p : ModelProxy) (h : p.stopEvent = none) :
    p.stop_generation = p ∧ p.clear_stop = p := by
  constructor <;>
    simp [ModelProxy.stop_generation, ModelProxy.clear_stop, h]

/-- Witness for C10 at the never-started proxy. -/
theorem C10_witness :
    (ModelProxy.init "m" "models/m.gguf").stopEvent = none ∧
    (ModelProxy.init "m" "models/m.gguf").stop_generation = ModelProxy.init "m" "models/m.gguf" ∧
    (ModelProxy.init "m" "models/m.gguf").clear_stop = ModelProxy.init "m" "models/m.gguf" :=
  ⟨rfl, (C10_stop_clear_noop (ModelProxy.init "m" "models/m.gguf") rfl).1,
    (C10_stop_clear_noop (ModelProxy.init "m" "models/m.gguf") rfl).2⟩

/-- C9: when the resolved name (a None argument resolves to the default
model first) is not a key of the registry, get_model raises ValueError and
the supervisor state is unchanged, with no worker shut down or spawned. -/
theorem C9_get_model_unknown (s : ModelProxyManager) (name : Option String)
    (now : Nat) (outcome : LoadOutcome)
    (h : registryHas s.models (s.resolveName name) = false) :
    s.get_model name now outcome =
      ⟨s, [], .error (.valueError "Model not found in registry")⟩ := by
  cases hr : s.resolveName name with
  | none => simp [ModelProxyManager.get_model, hr]
  | some n =>
    cases hl : s.models.lookup n with
    | none => simp [ModelProxyManager.get_model, hr, hl]
    | some path =>
      exfalso
      rw [hr] at h
      simp [registryHas, hl] at h

/-- Witness for C9: an unregistered name on a concrete supervisor. -/
theorem C9_witness :
    registryHas mgrEmpty.models (mgrEmpty.resolveName (some "z")) = false ∧
    mgrEmpty.get_model (some "z") 0 .ok =
      ⟨mgrEmpty, [], .error (.valueError "Model not found in registry")⟩ :=
  ⟨by decide, C9_get_model_unknown mgrEmpty (some "z") 0 .ok (by decide)⟩

/-- C6 counterexample: the claim predicts that unload_model returns false
whenever a name is given that differs from the active model, but on a live
slot for "x" the call unload_model("") returns true (the source tests the
name with Python truthiness, so the given empty string is treated as no
name) even though the given name differs from the active model. -/
theorem C6_counterexample :
    (mgrX.unload_model (some "")).1 = true ∧
    (some "" : Option String) ≠ mgrX.active_model := by
  constructor
  · decide
  · decide

/-- C6 (amended): unload_model(name) returns false and leaves the state
unchanged when a non-empty name is given that differs from the active
model, or when the ActiveSlot is empty; otherwise (slot occupied and the
name missing, empty, or equal to the active model) it shuts down the active
proxy, empties the slot, and returns true. (The amendment: a given empty
string behaves like an absent name, by Python truthiness.) -/
theorem C6_unload_model_amended (s : ModelProxyManager) (name : Option String) :
    (strTruthy name = true → name ≠ s.active_model →
      (s.unload_model name).1 = false ∧ (s.unload_model name).2.1 = s ∧
      (s.unload_model name).2.2 = []) ∧
    (s.active_proxy = none →
      (s.unload_model name).1 = false ∧ (s.unload_model name).2.1 = s ∧
      (s.unload_model name).2.2 = []) ∧
    (∀ p, s.active_proxy = some p → (strTruthy name = false ∨ name = s.active_model) →
      (s.unload_model name).1 = true ∧
      (s.unload_model name).2.1 = { s with active_proxy := none, active_model := none } ∧
      (s.unload_model name).2.2 = [MgrEvent.proxyShutdown p.model_name]) := by
  refine ⟨?_, ?_, ?_⟩
  · intro h1 h2
    simp [ModelProxyManager.unload_model, h1, h2]
  · intro h
    by_cases hc : strTruthy name = true ∧ name ≠ s.active_model
    · simp [ModelProxyManager.unload_model, hc]
    · simp [ModelProxyManager.unload_model, hc, h]
  · intro p hp hc
    cases hc with
    | inl hl => simp [ModelProxyManager.unload_model, hl, hp]
    | inr hr => simp [ModelProxyManager.unload_model, hr, hp]

/-- Witness for C6 (amended): a non-empty, non-active name on a live slot. -/
theorem C6_witness :
    strTruthy (some "y") = true ∧ (some "y" : Option String) ≠ mgrX.active_model ∧
    (mgrX.unload_model (some "y")).1 = false ∧
    (mgrX.unload_model (some "y")).2.1 = mgrX ∧
    (mgrX.unload_model (some "y")).2.2 = [] := by
  have h := (C6_unload_model_amended mgrX (some "y")).1 (by decide) (by decide)
  exact ⟨by decide, by decide, h.1, h.2.1, h.2.2⟩

/-- C1 counterexample: on a supervisor with one registered model and an
empty slot, get_model("m") with a failing LOAD propagates the error, yet
afterwards active_proxy is NOT None: it holds the newly constructed proxy.
The claim that the ActiveSlot is left empty is therefore false. -/
theorem C1_counterexample :
    isErr (mgrEmpty.get_model (some "m") 5 (.errResp "boom")).result = true ∧
    (mgrEmpty.get_model (some "m") 5 (.errResp "boom")).state.active_proxy ≠ none := by
  constructor
  · decide
  · decide

/-- C1 (amended): whenever get_model constructs a new proxy (the registry
resolves the name and the live-reuse test fails) and that proxy's start()
raises, the error propagates to the caller, but the ActiveSlot is not
emptied: active_proxy holds the newly constructed (failed) proxy and
active_model keeps its previous value; the loading flag is cleared by the
finally block. -/
theorem C1_start_failure (s : ModelProxyManager) (name : Option String)
    (now : Nat) (outcome : LoadOutcome) (n path : String)
    (hres : s.resolveName name = some n)
    (hlook : s.models.lookup n = some path)
    (hfail : outcome ≠ .ok)
    (hnoreuse : ∀ p, s.active_proxy = some p →
      ¬(s.active_model = some n ∧ p.is_alive = true)) :
    isErr (s.get_model name now outcome).result = true ∧
    (s.get_model name now outcome).state.active_proxy ≠ none ∧
    (s.get_model name now outcome).state.active_model = s.active_model ∧
    (s.get_model name now outcome).state.loading = false := by
  have hspawn : ∀ evs : List MgrEvent,
      isErr (s.spawnNew n path evs now outcome).result = true ∧
      (s.spawnNew n path evs now outcome).state.active_proxy ≠ none ∧
      (s.spawnNew n path evs now outcome).state.active_model = s.active_model ∧
      (s.spawnNew n path evs now outcome).state.loading = false := by
    intro evs
    cases outcome with
    | ok => exact absurd rfl hfail
    | errResp m =>
        simp [ModelProxyManager.spawnNew, ModelProxy.start, ModelProxy.init, isErr]
    | timeout =>
        simp [ModelProxyManager.spawnNew, ModelProxy.start, ModelProxy.init, isErr]
  cases hap : s.active_proxy with
  | none =>
      have h := hspawn []
      simpa [ModelProxyManager.get_model, hres, hlook, hap] using h
  | some p =>
      have h := hspawn [MgrEvent.proxyShutdown p.model_name]
      simpa [ModelProxyManager.get_model, hres, hlook, hap,
        if_neg (hnoreuse p hap)] using h

/-- Witness for C1 (amended) at the concrete supervisor of the
counterexample. -/
theorem C1_witness :
    mgrEmpty.resolveName (some "m") = some "m" ∧
    mgrEmpty.models.lookup "m" = some "models/m.gguf" ∧
    isErr (mgrEmpty.get_model (some "m") 5 (.errResp "boom")).result = true ∧
    (mgrEmpty.get_model (some "m") 5 (.errResp "boom")).state.active_model =
      mgrEmpty.active_model ∧
    (mgrEmpty.get_model (some "m") 5 (.errResp "boom")).state.loading = false := by
  have h := C1_start_failure mgrEmpty (some "m") 5 (.errResp "boom") "m"
    "models/m.gguf" (by decide) (by decide) (by decide)
    (fun p hp => by simp [mgrEmpty] at hp)
  exact ⟨by decide, by decide, h.1, h.2.2.1, h.2.2.2⟩

/-- A configuration whose per-model settings for "m" request a tensor
override. -/
def cfgC2 : Config :=
  { mm_n_ctx := 4096
    mm_n_gpu_layers := -1
    mm_n_threads := none
    model_settings := [("m", { override_tensor := some "pattern" })] }

/-- C2 counterexample: with a per-model override_tensor set for "m", the
effective parameters the worker derives from the LOAD payload the proxy
sends differ from the overlay described by the claim: the proxy never puts
override_tensor (or offload_kqv) into the payload, so the worker uses
override_tensor = None instead of the configured override. -/
theorem C2_counterexample :
    handle_load_params (send_load_command_payload cfgC2 "m" "models/m.gguf") ≠
      spec_effective_params cfgC2 "m" "models/m.gguf" := by
  decide

/-- C2 (amended): the LOAD request carries effective n_ctx, n_gpu_layers and
n_threads equal to the global defaults overlaid with the per-model overrides
for exactly those three keys; the per-model override_tensor and offload_kqv
settings are not forwarded, so the worker always uses override_tensor = None
and offload_kqv = True; and a settings entry for a different model never
affects the payload. -/
theorem C2_load_params (cfg : Config) (model_name model_path other : String)
    (ms2 : ModelSettings) (hne : other ≠ model_name) :
    handle_load_params (send_load_command_payload cfg model_name model_path) =
      { model_path := model_path
        n_ctx := (cfg.settingsFor model_name).n_ctx.getD cfg.mm_n_ctx
        n_gpu_layers :=
          (cfg.settingsFor model_name).n_gpu_layers.getD cfg.mm_n_gpu_layers
        n_threads :=
          (cfg.settingsFor model_name).n_threads.getD (cfg.mm_n_threads.getD 8)
        override_tensor := none
        offload_kqv := true } ∧
    send_load_command_payload
        { cfg with model_settings := (other, ms2) :: cfg.model_settings }
        model_name model_path =
      send_load_command_payload cfg model_name model_path := by
  constructor
  · rfl
  · have hbe : (model_name == other) = false := by
      simpa using Ne.symm hne
    simp [send_load_command_payload, Config.settingsFor, List.lookup, hbe]

/-- Witness for C2 (amended) on the counterexample configuration, with an
unrelated model "o" receiving settings. -/
theorem C2_witness :
    ("o" : String) ≠ "m" ∧
    handle_load_params (send_load_command_payload cfgC2 "m" "models/m.gguf") =
      { model_path := "models/m.gguf"
        n_ctx := (cfgC2.settingsFor "m").n_ctx.getD cfgC2.mm_n_ctx
        n_gpu_layers := (cfgC2.settingsFor "m").n_gpu_layers.getD cfgC2.mm_n_gpu_layers
        n_threads := (cfgC2.settingsFor "m").n_threads.getD (cfgC2.mm_n_threads.getD 8)
        override_tensor := none
        offload_kqv := true } ∧
    send_load_command_payload
        { cfgC2 with model_settings := ("o", { n_ctx := some 99 }) :: cfgC2.model_settings }
        "m" "models/m.gguf" =
      send_load_command_payload cfgC2 "m" "models/m.gguf" := by
  have h := C2_load_params cfgC2 "m" "models/m.gguf" "o" { n_ctx := some 99 }
    (by decide)
  exact ⟨by decide, h.1, h.2⟩

/-- Every response emitted by the streaming loop carries the request id. -/
theorem streamLoop_mem_id (rid : String) (hasStop : Bool) (stops : Nat → Bool) :
    ∀ (chunks : List ChunkOut) (trail : Option String) (i : Nat) (r : Response),
      r ∈ (streamLoop rid hasStop stops chunks trail i).1 → r.id = rid := by
  intro chunks
  induction chunks with
  | nil =>
      intro trail i r hr
      cases trail with
      | none =>
          simp [streamLoop] at hr
          simp [hr]
      | some m => simp [streamLoop] at hr
  | cons c rest ih =>
      intro trail i r hr
      by_cases hs : hasStop ∧ stops i
      · simp [streamLoop, hs] at hr
        simp [hr]
      · simp [streamLoop, hs] at hr
        cases hr with
        | inl h => simp [h]
        | inr h => exact ih trail (i + 1) r h

/-- Every response sent by `_handle_load` carries the request id. -/
theorem handle_load_mem_id (w : ModelWorker) (req : Request) (calls : LlmCalls) :
    ∀ r ∈ (w.handle_load req calls).1, r.id = req.id := by
  intro r hr
  unfold ModelWorker.handle_load at hr
  by_cases hl : w.llm = true
  · simp [hl] at hr
    simp [hr]
  · cases hres : calls.loadRes with
    | error m => simp [hl, hres] at hr
    | ok u =>
        simp [hl, hres] at hr
        simp [hr]

/-- Every response sent by `_handle_generate` carries the request id. -/
theorem handle_generate_mem_id (w : ModelWorker) (req : Request)
    (calls : LlmCalls) : ∀ r ∈ (w.handle_generate req calls).1, r.id = req.id := by
  intro r hr
  unfold ModelWorker.handle_generate at hr
  by_cases hl : w.llm = false
  · simp [hl] at hr
    simp [hr]
  · cases hres : calls.genRes with
    | error m => simp [hl, hres] at hr
    | ok p =>
        obtain ⟨text, fr⟩ := p
        simp [hl, hres] at hr
        simp [hr]

/-- Every response sent by `_handle_tokenize` carries the request id. -/
theorem handle_tokenize_mem_id (w : ModelWorker) (req : Request)
    (calls : LlmCalls) : ∀ r ∈ (w.handle_tokenize req calls).1, r.id = req.id := by
  intro r hr
  unfold ModelWorker.handle_tokenize at hr
  by_cases hl : w.llm = false
  · simp [hl] at hr
    simp [hr]
  · cases hres : calls.tokRes with
    | error m => simp [hl, hres] at hr
    | ok p =>
        obtain ⟨tokens, nctx⟩ := p
        simp [hl, hres] at hr
        simp [hr]

/-- Every response sent by `_handle_stream` carries the request id. -/
theorem handle_stream_mem_id (w : ModelWorker) (req : Request)
    (calls : LlmCalls) (stops : Nat → Bool) :
    ∀ r ∈ (w.handle_stream req calls stops).1, r.id = req.id := by
  intro r hr
  unfold ModelWorker.handle_stream at hr
  by_cases hl : w.llm = false
  · simp [hl] at hr
    simp [hr]
  · cases hres : calls.streamRes with
    | error m => simp [hl, hres] at hr
    | ok pr =>
        obtain ⟨chunks, trail⟩ := pr
        simp [hl, hres] at hr
        exact streamLoop_mem_id req.id w.hasStop stops chunks trail 0 r hr

/-- C3: every response the worker sends while dispatching a request —
RESULT, CHUNK, DONE or ERROR, including the ERROR sent when a handler
raises — carries the id of that request. -/
theorem C3_response_ids (w : ModelWorker) (req : Request) (calls : LlmCalls)
    (stops : Nat → Bool) (r : Response)
    (hr : r ∈ (w.handle_request req calls stops).1) : r.id = req.id := by
  have hdisp : ∀ x ∈ (w.dispatch req calls stops).1, x.id = req.id := by
    intro x hx
    cases hc : req.command
    case load =>
        simp only [ModelWorker.dispatch, hc] at hx
        exact handle_load_mem_id w req calls x hx
    case generate =>
        simp only [ModelWorker.dispatch, hc] at hx
        exact handle_generate_mem_id w req calls x hx
    case generate_stream =>
        simp only [ModelWorker.dispatch, hc] at hx
        exact handle_stream_mem_id w req calls stops x hx
    case tokenize =>
        simp only [ModelWorker.dispatch, hc] at hx
        exact handle_tokenize_mem_id w req calls x hx
    case status =>
        simp [ModelWorker.dispatch, hc] at hx
        simp [hx]
    case shutdown =>
        simp [ModelWorker.dispatch, hc] at hx
        simp [hx]
    case heartbeat =>
        simp [ModelWorker.dispatch, hc] at hx
        simp [hx]
  simp only [ModelWorker.handle_request] at hr
  cases hd : (w.dispatch req calls stops).2.2 with
  | none =>
      rw [hd] at hr
      exact hdisp r hr
  | some m =>
      rw [hd] at hr
      have hr2 : r ∈ (w.dispatch req calls stops).1 ++
          [(⟨req.id, .error, .errP m⟩ : Response)] := hr
      rcases List.mem_append.mp hr2 with h | h
      · exact hdisp r h
      · simp at h
        simp [h]

/-- A worker with a loaded model and a stop event, used by the witnesses. -/
def wLoaded : ModelWorker := ⟨"m", true, true⟩

/-- An oracle whose streaming call yields two chunks and finishes. -/
def callsStream : LlmCalls :=
  ⟨.ok (), .ok ("t", "stop"), .ok ([1, 2], 4096), .ok ([⟨"a", none⟩, ⟨"b", none⟩], none)⟩

/-- A stop flag observed clear at the first check and set at the second. -/
def stopsAt1 : Nat → Bool := fun j => decide (j = 1)

/-- Witness for C3: a concrete response of a concrete dispatch carries the
request id. -/
theorem C3_witness :
    (⟨"r1", .result, .statusP "alive"⟩ : Response) ∈
      (wLoaded.handle_request ⟨"r1", .heartbeat⟩ callsStream stopsAt1).1 ∧
    (⟨"r1", .result, .statusP "alive"⟩ : Response).id =
      (⟨"r1", .heartbeat⟩ : Request).id :=
  ⟨by decide,
    C3_response_ids wLoaded ⟨"r1", .heartbeat⟩ callsStream stopsAt1
      ⟨"r1", .result, .statusP "alive"⟩ (by decide)⟩

/-- A terminal response: DONE or ERROR. -/
def isTerminal (x : Response) : Bool :=
  decide (x.type = ResponseType.done ∨ x.type = ResponseType.error)

/-- Shape of the streaming loop output: a prefix of CHUNK responses,
followed either by the terminal DONE (no escaping exception) or by nothing
(an exception escapes, to be answered by the dispatcher). -/
theorem streamLoop_shape (rid : String) (hasStop : Bool) (stops : Nat → Bool) :
    ∀ (chunks : List ChunkOut) (trail : Option String) (i : Nat),
      ∃ pre : List Response, (∀ c ∈ pre, c.type = ResponseType.chunk) ∧
        (((streamLoop rid hasStop stops chunks trail i).1 =
            pre ++ [⟨rid, .done, .doneP "stop"⟩] ∧
          (streamLoop rid hasStop stops chunks trail i).2 = none) ∨
         ((streamLoop rid hasStop stops chunks trail i).1 = pre ∧
          ∃ m, (streamLoop rid hasStop stops chunks trail i).2 = some m)) := by
  intro chunks
  induction chunks with
  | nil =>
      intro trail i
      cases trail with
      | none => exact ⟨[], by simp, Or.inl (by simp [streamLoop])⟩
      | some m => exact ⟨[], by simp, Or.inr (by simp [streamLoop])⟩
  | cons c rest ih =>
      intro trail i
      by_cases hs : hasStop ∧ stops i
      · exact ⟨[], by simp, Or.inl (by simp [streamLoop, hs])⟩
      · obtain ⟨pre, hpre, hcase⟩ := ih trail (i + 1)
        refine ⟨⟨rid, .chunk, .chunkP c.text c.finish_reason⟩ :: pre, ?_, ?_⟩
        · intro x hx
          rcases List.mem_cons.mp hx with h | h
          · simp [h]
          · exact hpre x h
        · cases hcase with
          | inl h =>
              exact Or.inl ⟨by simp [streamLoop, hs, h.1], by simp [streamLoop, hs, h.2]⟩
          | inr h =>
              obtain ⟨m, hm⟩ := h.2
              exact Or.inr ⟨by simp [streamLoop, hs, h.1], m, by simp [streamLoop, hs, hm]⟩

/-- C4: for every GENERATE_STREAM request, the worker emits zero or more
CHUNK responses followed by exactly one terminal response (DONE or ERROR);
in particular the number of DONE-plus-ERROR responses equals 1. -/
theorem C4_stream_terminal (w : ModelWorker) (req : Request) (calls : LlmCalls)
    (stops : Nat → Bool) (hcmd : req.command = Command.generate_stream) :
    ∃ pre t, (w.handle_request req calls stops).1 = pre ++ [t] ∧
      (∀ c ∈ pre, c.type = ResponseType.chunk) ∧
      (t.type = ResponseType.done ∨ t.type = ResponseType.error) ∧
      ((w.handle_request req calls stops).1.countP isTerminal) = 1 := by
  have hcount : ∀ (pre : List Response) (t : Response),
      (∀ c ∈ pre, c.type = ResponseType.chunk) →
      (t.type = ResponseType.done ∨ t.type = ResponseType.error) →
      (pre ++ [t]).countP isTerminal = 1 := by
    intro pre t hpre ht
    rw [List.countP_append]
    have h0 : pre.countP isTerminal = 0 := by
      rw [List.countP_eq_zero]
      intro a ha
      simp [isTerminal, hpre a ha]
    have h1 : ([t].countP isTerminal) = 1 := by
      cases ht with
      | inl h => simp [List.countP_cons, isTerminal, h]
      | inr h => simp [List.countP_cons, isTerminal, h]
    rw [h0, h1]
  by_cases hl : w.llm = false
  · have hresp : (w.handle_request req calls stops).1 =
        [⟨req.id, .error, .errP "Model not loaded"⟩] := by
      simp [ModelWorker.handle_request, ModelWorker.dispatch, hcmd,
        ModelWorker.handle_stream, hl]
    refine ⟨[], ⟨req.id, .error, .errP "Model not loaded"⟩, by simp [hresp],
      by simp, Or.inr rfl, ?_⟩
    rw [hresp]
    exact hcount [] ⟨req.id, .error, .errP "Model not loaded"⟩ (by simp) (Or.inr rfl)
  · cases hres : calls.streamRes with
    | error m =>
        have hresp : (w.handle_request req calls stops).1 =
            [⟨req.id, .error, .errP m⟩] := by
          simp [ModelWorker.handle_request, ModelWorker.dispatch, hcmd,
            ModelWorker.handle_stream, hl, hres]
        refine ⟨[], ⟨req.id, .error, .errP m⟩, by simp [hresp], by simp,
          Or.inr rfl, ?_⟩
        rw [hresp]
        exact hcount [] ⟨req.id, .error, .errP m⟩ (by simp) (Or.inr rfl)
    | ok pr =>
        obtain ⟨chunks, trail⟩ := pr
        obtain ⟨pre, hpre, hcase⟩ := streamLoop_shape req.id w.hasStop stops chunks trail 0
        cases hcase with
        | inl h =>
            have hresp : (w.handle_request req calls stops).1 =
                pre ++ [⟨req.id, .done, .doneP "stop"⟩] := by
              simp [ModelWorker.handle_request, ModelWorker.dispatch, hcmd,
                ModelWorker.handle_stream, hl, hres, h.1, h.2]
            refine ⟨pre, ⟨req.id, .done, .doneP "stop"⟩, hresp, hpre, Or.inl rfl, ?_⟩
            rw [hresp]
            exact hcount pre ⟨req.id, .done, .doneP "stop"⟩ hpre (Or.inl rfl)
        | inr h =>
            obtain ⟨m, hm⟩ := h.2
            have hresp : (w.handle_request req calls stops).1 =
                pre ++ [⟨req.id, .error, .errP m⟩] := by
              simp [ModelWorker.handle_request, ModelWorker.dispatch, hcmd,
                ModelWorker.handle_stream, hl, hres, h.1, hm]
            refine ⟨pre, ⟨req.id, .error, .errP m⟩, hresp, hpre, Or.inr rfl, ?_⟩
            rw [hresp]
            exact hcount pre ⟨req.id, .error, .errP m⟩ hpre (Or.inr rfl)

/-- Witness for C4 on a concrete two-chunk stream. -/
theorem C4_witness :
    (⟨"r2", .generate_stream⟩ : Request).command = Command.generate_stream ∧
    (∃ pre t,
      (wLoaded.handle_request ⟨"r2", .generate_stream⟩ callsStream stopsAt1).1 =
        pre ++ [t] ∧
      (∀ c ∈ pre, c.type = ResponseType.chunk) ∧
      (t.type = ResponseType.done ∨ t.type = ResponseType.error) ∧
      ((wLoaded.handle_request ⟨"r2", .generate_stream⟩ callsStream stopsAt1).1.countP
          isTerminal) = 1) :=
  ⟨rfl, C4_stream_terminal wLoaded ⟨"r2", .generate_stream⟩ callsStream stopsAt1 rfl⟩

/-- If the stop flag is first observed set at the k-th between-chunk check,
the streaming loop emits exactly the first k chunks and then the terminal
DONE with finish_reason "stop", with no escaping exception. -/
theorem streamLoop_stop (rid : String) (stops : Nat → Bool) :
    ∀ (chunks : List ChunkOut) (trail : Option String) (i k : Nat),
      k < chunks.length → stops (i + k) = true →
      (∀ j, j < k → stops (i + j) = false) →
      streamLoop rid true stops chunks trail i =
        ((chunks.take k).map
            (fun c => ⟨rid, .chunk, .chunkP c.text c.finish_reason⟩) ++
          [⟨rid, .done, .doneP "stop"⟩], none) := by
  intro chunks
  induction chunks with
  | nil =>
      intro trail i k hk _ _
      exact absurd hk (by simp)
  | cons c rest ih =>
      intro trail i k hk hset hbef
      cases k with
      | zero =>
          have h0 : stops i = true := by simpa using hset
          simp [streamLoop, h0]
      | succ k2 =>
          have h0 : stops i = false := by
            simpa using hbef 0 (Nat.succ_pos k2)
          have hk2 : k2 < rest.length := by
            simpa using Nat.lt_of_succ_lt_succ hk
          have hset2 : stops (i + 1 + k2) = true := by
            have harith : i + 1 + k2 = i + (k2 + 1) := by omega
            rw [harith]
            exact hset
          have hbef2 : ∀ j, j < k2 → stops (i + 1 + j) = false := by
            intro j hj
            have harith : i + 1 + j = i + (j + 1) := by omega
            rw [harith]
            exact hbef (j + 1) (by omega)
          have hrec := ih trail (i + 1) k2 hk2 hset2 hbef2
          simp [streamLoop, h0, hrec, List.take_succ_cons]

/-- C5: during a GENERATE_STREAM with the model loaded, if the StopFlag is
first observed set at the k-th between-chunk check, the worker emits no
CHUNK beyond the first k and ends the stream with the single terminal DONE
carrying finish_reason "stop" — no ERROR is produced by cancellation. -/
theorem C5_stop_clean (w : ModelWorker) (req : Request) (calls : LlmCalls)
    (stops : Nat → Bool) (chunks : List ChunkOut) (trail : Option String)
    (k : Nat)
    (hllm : w.llm = true) (hstop : w.hasStop = true)
    (hcmd : req.command = Command.generate_stream)
    (hres : calls.streamRes = .ok (chunks, trail))
    (hk : k < chunks.length) (hset : stops k = true)
    (hbef : ∀ j, j < k → stops j = false) :
    (w.handle_request req calls stops).1 =
      (chunks.take k).map
          (fun c => ⟨req.id, .chunk, .chunkP c.text c.finish_reason⟩) ++
        [⟨req.id, .done, .doneP "stop"⟩] := by
  have hsl := streamLoop_stop req.id stops chunks trail 0 k hk
    (by simpa using hset) (fun j hj => by simpa using hbef j hj)
  have hstream : w.handle_stream req calls stops =
      ((chunks.take k).map
          (fun c => ⟨req.id, .chunk, .chunkP c.text c.finish_reason⟩) ++
        [⟨req.id, .done, .doneP "stop"⟩], none) := by
    simp [ModelWorker.handle_stream, hllm, hres, hstop, hsl]
  simp [ModelWorker.handle_request, ModelWorker.dispatch, hcmd, hstream]

/-- Witness for C5: the stop flag set at the second check on a two-chunk
stream yields one CHUNK and the DONE "stop" terminal. -/
theorem C5_witness :
    stopsAt1 1 = true ∧ stopsAt1 0 = false ∧
    (wLoaded.handle_request ⟨"r3", .generate_stream⟩ callsStream stopsAt1).1 =
      (([⟨"a", none⟩, ⟨"b", none⟩] : List ChunkOut).take 1).map
          (fun c => ⟨"r3", .chunk, .chunkP c.text c.finish_reason⟩) ++
        [⟨"r3", .done, .doneP "stop"⟩] :=
  ⟨rfl, rfl,
    C5_stop_clean wLoaded ⟨"r3", .generate_stream⟩ callsStream stopsAt1
      [⟨"a", none⟩, ⟨"b", none⟩] none 1 rfl rfl rfl rfl (by decide) rfl
      (fun j hj => by
        have hj0 : j = 0 := by omega
        subst hj0
        rfl)⟩
